import Mathlib

/-!
Shallow embedding of the detection-and-engagement state machine of
`src/gui/controllers/teleporter_tab_worker.py` (class `BossDetectionWorker`).

Modelling conventions:
* Wall-clock times are modelled in integer centiseconds (`ℤ`), so the source
  constant `0.35` s (`OCR_INTERVAL`) appears as `35`, `2.0` s as `200`,
  `CHECK_COOLDOWN = 10.0` s as `1000`, and so on.  Only orderings and
  differences of times are ever used by the source, so this is faithful up to
  the choice of unit.
* Screen coordinates are integer pixels (`ℤ`); Python's floor division `//`
  is `Int.fdiv`.
* String-similarity scores (`Levenshtein.ratio`) are rationals in `[0,1]`,
  supplied by an oracle function, and compared against the source thresholds
  written as `mkRat` constants (`0.6` is `mkRat 6 10`, etc.).
* The perception primitives (template matching on the current frame, OCR of a
  small region, scroll-icon location) are per-tick oracles in `TickInput`;
  `_find_with_template` returning `None` when the key is absent from the
  template cache is enforced in the model itself (`findMapTemplate`,
  `findStatusTemplate`), matching the source.
* External effects (mouse, keyboard, scrolling, channel commands) are recorded
  as an action list; input injection is assumed to succeed except where the
  source itself catches an exception, which is modelled by an explicit error
  flag in `TickInput`.
* Python dicts (`checked_maps`, `boss_blacklist`, `dynamic_templates` keys,
  `channel_hotkeys`) are association lists with update-by-key semantics.
-/

namespace TroyanEyes

/-- Maximal groups of consecutive digit characters, accumulator version. -/
def findNumsAux : List Char → String → List String → List String
  | [], cur, acc => if cur.isEmpty then acc.reverse else (cur :: acc).reverse
  | c :: rest, cur, acc =>
    if c.isDigit then findNumsAux rest (cur.push c) acc
    else if cur.isEmpty then findNumsAux rest ("") acc
    else findNumsAux rest ("") (cur :: acc)

/-- Model of Python `re.findall(r'\d+', s)`: the maximal groups of consecutive
digits of `s`, in order. -/
def findNums (s : String) : List String :=
  findNumsAux s.data ("") []

/-- Model of Python `re.search(r'\d+[ms:]', s) is not None`: some digit is
immediately followed by `m`, `s` or `:`. -/
def hasTimerPat : List Char → Bool
  | c1 :: c2 :: rest =>
    (c1.isDigit && (c2 = 'm' || c2 = 's' || c2 = ':')) || hasTimerPat (c2 :: rest)
  | _ => false

/-- Model of Python `str.lower()` (ASCII case folding suffices for the
identifiers compared here). -/
def lowerStr (s : String) : String :=
  String.mk (s.data.map Char.toLower)

/-- Model of Python `str.strip()`: drop whitespace from both ends. -/
def stripStr (s : String) : String :=
  String.mk (((s.data.dropWhile Char.isWhitespace).reverse.dropWhile
    Char.isWhitespace).reverse)

/-- Model of Python `"pat" in s`. -/
def containsSub (pat s : String) : Bool :=
  decide (pat.data.IsInfix s.data)

/-- Truncating integer mean, `int(np.mean(l))` for the non-negative pixel
coordinates used by the source (for which `int` truncation is floor). -/
def meanInt (l : List ℤ) : ℤ :=
  l.sum.fdiv l.length

/-- Match rectangle `(x, y, w, h)` returned by `_find_with_template`. -/
structure Rect where
  x : ℤ
  y : ℤ
  w : ℤ
  h : ℤ
deriving DecidableEq, Repr

/-- One OCR detection: a quadrilateral of corner points, the recognized text
and a confidence, as produced by `_run_ocr` (`box, text, conf`). -/
structure OcrBox where
  box : List (ℤ × ℤ)
  text : String
  conf : ℚ
deriving DecidableEq

/-- The `locked_boss_roi` dictionary set when locking onto a boss. -/
structure LockedRoi where
  minX : ℤ
  maxX : ℤ
  minY : ℤ
  maxY : ℤ
  text : String
deriving DecidableEq

/-- The `self.state` strings of the worker. -/
inductive MachineState where
  | SCANNING
  | WAITING_FOR_BOSS_LIST
  | CHECKING_BOSSES
  | MONITORING_BOSS
  | CHANGING_CHANNEL
  | RESELECTING_MAP
deriving DecidableEq, Repr

/-- Key of a `boss_blacklist` entry:
`(self.current_map_name, self.current_channel, cx // 10, cy // 10)`. -/
abbrev BlacklistKey := Option String × ℕ × ℤ × ℤ

/-- Engagement actions issued by the state machine (mouse/keyboard effects). -/
inductive EngAction where
  | moveClick (x y : ℤ)
  | moveTo (x y : ℤ)
  | dragScroll (dist : ℤ)
  | pressKey (k : String)
  | holdSpace
  | releaseSpace
  | chatCommand (s : String)
deriving DecidableEq, Repr

/-- A tick-level action: either an engagement action or the start of a
background OCR worker thread (`threading.Thread(target=self._run_ocr, ...)`). -/
inductive Action where
  | eng (a : EngAction)
  | dispatchOcr
deriving DecidableEq, Repr

/-- The mutable state of `BossDetectionWorker` relevant to the state machine
(configuration fields included; times in centiseconds). -/
structure WorkerState where
  mapPriority : List String
  numChannels : ℕ
  channelHotkeys : List (ℕ × String)
  pelerynkaKey : String
  ignoreStuck : Bool
  stuckTimeout : ℤ
  state : MachineState
  stateTimer : ℤ
  currentMapName : Option String
  lockedBossRoi : Option LockedRoi
  bossStatusChangeCounter : ℕ
  checkedMaps : List (String × ℤ)
  currentChannel : ℕ
  spaceHeld : Bool
  latestOcrResult : Option (List OcrBox)
  lastOcrTime : ℤ
  ocrDisabledUntilCycleEnd : Bool
  enteredMapTime : ℤ
  isInitialCheck : Bool
  bossBlacklist : List (BlacklistKey × ℤ)
  lastScrollTime : ℤ
  lastScrollFinishTime : ℤ
  lastTargetFoundTime : ℤ
  scrollDirection : ℤ
  scrollCount : ℕ
  cachedKeys : List String
  lastRevalidationTime : ℤ
deriving DecidableEq

/-- Per-tick oracle inputs: clock, perception results on the current frame and
the caught-exception flags of the tick. -/
structure TickInput where
  now : ℤ
  levRatio : String → String → ℚ
  findMapRect : String → Option Rect
  findStatusRect : Option Rect
  findStatusInLockedRoi : Option Rect
  monitorTemplateErr : Bool
  verifyText : Option String
  verifyErr : Bool
  inputErr : Bool
  hasScrollTemplate : Bool
  scrollIconLocalY : Option ℤ
  scrollIconLocalX : ℤ
  roiHeight : ℤ
  regionLeft : ℤ
  regionTop : ℤ

/-- `OCR_INTERVAL = 0.35` s. -/
def OCR_INTERVAL : ℤ := 35

/-- `self.CHECK_COOLDOWN = 10.0` s. -/
def CHECK_COOLDOWN : ℤ := 1000

/-- `self.REVALIDATION_INTERVAL = 300.0` s. -/
def REVALIDATION_INTERVAL : ℤ := 30000

/-- Association-list update, modelling Python dict assignment `d[k] = v`. -/
def setChecked (l : List (String × ℤ)) (m : String) (t : ℤ) : List (String × ℤ) :=
  (m, t) :: l.filter (fun p => !(p.1 == m))

/-- Membership test `m in self.checked_maps`. -/
def isChecked (l : List (String × ℤ)) (m : String) : Bool :=
  l.any (fun p => p.1 == m)

/-- Blacklist dict assignment `self.boss_blacklist[key] = timestamp`. -/
def blInsert (l : List (BlacklistKey × ℤ)) (k : BlacklistKey) (t : ℤ) :
    List (BlacklistKey × ℤ) :=
  (k, t) :: l.filter (fun e => !(e.1 == k))

/-- Set-insert for the template-cache key set `self.dynamic_templates`. -/
def insertKey (l : List String) (k : String) : List String :=
  if l.contains k then l else k :: l

/-- `self.channel_hotkeys.get(str(self.current_channel))`. -/
def lookupHotkey (l : List (ℕ × String)) (ch : ℕ) : Option String :=
  (l.find? (fun p => p.1 == ch)).map (fun p => p.2)

/-- `_is_blacklisted(x, y, w, h)`: quantize the match centre to a 10 px grid
and look a 3×3 neighbourhood of cells up in `boss_blacklist` under the current
`(map, channel)`. -/
def isBlacklisted (st : WorkerState) (x y w h : ℤ) : Bool :=
  if !st.ignoreStuck then false
  else
    let cx := x + w.fdiv 2
    let cy := y + h.fdiv 2
    let gridX := cx.fdiv 10
    let gridY := cy.fdiv 10
    ([-1, 0, 1] : List ℤ).any (fun dx =>
      ([-1, 0, 1] : List ℤ).any (fun dy =>
        st.bossBlacklist.any (fun e =>
          e.1 == ((st.currentMapName, st.currentChannel, gridX + dx, gridY + dy) :
            BlacklistKey))))

/-- Blacklist key recorded on a stuck-boss timeout:
`(map, channel, cx // 10, cy // 10)` for the centre of `locked_boss_roi`. -/
def blacklistKeyOf (st : WorkerState) (roi : LockedRoi) : BlacklistKey :=
  let cx := (roi.minX + roi.maxX).fdiv 2
  let cy := (roi.minY + roi.maxY).fdiv 2
  (st.currentMapName, st.currentChannel, cx.fdiv 10, cy.fdiv 10)

/-- `_find_with_template(processed, "map:" ++ m, threshold=0.85)`: `None` when
the key is not cached, otherwise the frame oracle's answer. -/
def findMapTemplate (st : WorkerState) (inp : TickInput) (m : String) :
    Option Rect :=
  if st.cachedKeys.contains ("map:" ++ m) then inp.findMapRect m else none

/-- `_find_with_template(processed, "status:dostepny", threshold=0.90)`. -/
def findStatusTemplate (st : WorkerState) (inp : TickInput) : Option Rect :=
  if st.cachedKeys.contains ("status:dostepny") then inp.findStatusRect else none

/-- The boxes of `self.latest_ocr_result` (empty when the slot is `None`). -/
def ocrBoxes (st : WorkerState) : List OcrBox :=
  st.latestOcrResult.getD []

/-- The guard `if self.latest_ocr_result and self.map_priority:` enclosing the
whole state machine: both the latest OCR result and the priority list must be
non-empty (Python truthiness). -/
def gateOpen (st : WorkerState) : Bool :=
  (match st.latestOcrResult with
   | some (_ :: _) => true
   | _ => false) && !st.mapPriority.isEmpty

/-- `required_templates`: `map:` keys for every configured map plus
`status:dostepny`. -/
def requiredTemplates (st : WorkerState) : List String :=
  st.mapPriority.map (fun m => "map:" ++ m) ++ ["status:dostepny"]

/-- `missing_templates = required_templates - cached_keys` is non-empty. -/
def missingTemplates (st : WorkerState) : Bool :=
  (requiredTemplates st).any (fun k => !st.cachedKeys.contains k)

/-- The `ocr_needed` computation of a tick: missing templates, overridden to
`False` by `ocr_disabled_until_cycle_end`, then re-enabled by the SCANNING
(> 3.0 s without a target, only while not disabled) and CHECKING_BOSSES
(> 1.0 s in state, regardless of the disable flag) watchdogs. -/
def ocrNeeded (st : WorkerState) (now : ℤ) : Bool :=
  let n0 := missingTemplates st
  let n1 := if st.ocrDisabledUntilCycleEnd then false else n0
  let n2 :=
    if !n1 && st.state == MachineState.SCANNING &&
        !st.ocrDisabledUntilCycleEnd && decide (now - st.lastTargetFoundTime > 300)
    then true else n1
  let n3 :=
    if !n2 && st.state == MachineState.CHECKING_BOSSES &&
        decide (now - st.stateTimer > 100)
    then true else n2
  n3

/-- `_revalidate_templates`: drop every cached `status:` key not containing
`dostepny` (the canonical available indicator is exempt). -/
def revalidateTemplates (keys : List String) : List String :=
  keys.filter (fun k =>
    !(("status:".data.isPrefixOf k.data) && !containsSub ("dostepny") k))

/-- The periodic revalidation step at the top of a tick: every
`REVALIDATION_INTERVAL`, prune the status templates and force OCR by zeroing
`last_ocr_time`. -/
def revalStep (st : WorkerState) (now : ℤ) : WorkerState :=
  if now - st.lastRevalidationTime > REVALIDATION_INTERVAL then
    { st with cachedKeys := revalidateTemplates st.cachedKeys,
              lastOcrTime := 0,
              lastRevalidationTime := now }
  else st

/-- The SCANNING slow-path acceptance test for one OCR text against one map
name: `Levenshtein.ratio(text.lower(), map.lower()) > 0.6`, and when the map
name contains digit groups, the text must contain digit groups too and the
last groups must agree exactly. -/
def slowAccept (lev : String → String → ℚ) (text priorityMap : String) : Bool :=
  if lev (lowerStr text) (lowerStr priorityMap) > mkRat 6 10 then
    let mapNums := findNums priorityMap
    if mapNums.isEmpty then true
    else
      let textNums := findNums text
      if textNums.isEmpty then false
      else textNums.getLast? == mapNums.getLast?
  else false

/-- First OCR box accepted for a map by the SCANNING slow path (the source
loop breaks at the first `ratio > 0.6` box surviving the numeral rule). -/
def slowScanPick (lev : String → String → ℚ) (boxes : List OcrBox)
    (priorityMap : String) : Option OcrBox :=
  boxes.find? (fun b => slowAccept lev b.text priorityMap)

/-- The Issue-6 re-check before acting on the fast path at priority `idx`:
some strictly higher-priority map, not recently checked, is also visible via
template matching. -/
def higherVisible (st : WorkerState) (inp : TickInput)
    (checked : List (String × ℤ)) (idx : ℕ) : Bool :=
  (List.range idx).any (fun i =>
    match st.mapPriority.get? i with
    | some hm => !isChecked checked hm && (findMapTemplate st inp hm).isSome
    | none => false)

/-- Outcome of the SCANNING priority loop. -/
inductive ScanPick where
  | noneFound
  | viaTemplate (idx : ℕ) (name : String) (r : Rect)
  | viaOcr (idx : ℕ) (name : String) (b : OcrBox)
deriving DecidableEq

/-- Index selected by a `ScanPick`, if any. -/
def ScanPick.idx? : ScanPick → Option ℕ
  | .noneFound => none
  | .viaTemplate i _ _ => some i
  | .viaOcr i _ _ => some i

/-- Name selected by a `ScanPick`, if any. -/
def ScanPick.name? : ScanPick → Option String
  | .noneFound => none
  | .viaTemplate _ n _ => some n
  | .viaOcr _ n _ => some n

/-- The SCANNING priority loop over the tail `rest` of `map_priority` starting
at index `idx`: skip recently-checked maps; prefer the cached-template fast
path, but skip a fast-path hit when a strictly higher-priority unchecked map
is also template-visible (Issue 6); otherwise fall back to the OCR slow path
for this map; stop at the first map acted on. -/
def scanPickAux (st : WorkerState) (inp : TickInput)
    (checked : List (String × ℤ)) : List String → ℕ → ScanPick
  | [], _ => .noneFound
  | m :: rest, idx =>
    if isChecked checked m then scanPickAux st inp checked rest (idx + 1)
    else
      match findMapTemplate st inp m with
      | some r =>
        if higherVisible st inp checked idx then
          scanPickAux st inp checked rest (idx + 1)
        else .viaTemplate idx m r
      | none =>
        match slowScanPick inp.levRatio (ocrBoxes st) m with
        | some b => .viaOcr idx m b
        | none => scanPickAux st inp checked rest (idx + 1)

/-- The SCANNING priority loop over the whole `map_priority` list. -/
def scanPick (st : WorkerState) (inp : TickInput)
    (checked : List (String × ℤ)) : ScanPick :=
  scanPickAux st inp checked st.mapPriority 0

/-- A map is visible this tick: its cached template matches the frame, or some
OCR box passes the slow-path acceptance test for it. -/
def scanVisible (st : WorkerState) (inp : TickInput) (m : String) : Bool :=
  (findMapTemplate st inp m).isSome ||
    (slowScanPick inp.levRatio (ocrBoxes st) m).isSome

/-- The SCANNING scroll block (runs only when no target was clicked, no target
has been found for > 2.0 s and a scroll-icon template is loaded): locate the
indicator; at the bottom boundary while scrolling down, or the top boundary
while scrolling up, reverse direction without scrolling; otherwise, if ≥ 1.0 s
since the last scroll, drag 35 px in the current direction (after a boundary
double-check), stamp the scroll-finish time and clear the OCR result slot.
`local_y > roi_height * 0.9` is written `10 * local_y > 9 * roi_height`. -/
def scrollPhase (st : WorkerState) (inp : TickInput) :
    WorkerState × List EngAction :=
  let now := inp.now
  if now - st.lastTargetFoundTime > 200 && inp.hasScrollTemplate then
    match inp.scrollIconLocalY with
    | none => (st, [])
    | some localY =>
      let isAtBottom : Bool := decide (10 * localY > 9 * inp.roiHeight)
      let isAtTop : Bool := decide (10 * localY < inp.roiHeight)
      if isAtBottom && st.scrollDirection == 1 then
        ({ st with scrollDirection := -1, scrollCount := 0 }, [])
      else if isAtTop && st.scrollDirection == -1 then
        ({ st with scrollDirection := 1, scrollCount := 0 }, [])
      else if now - st.lastScrollTime > 100 then
        let dist0 := 35 * st.scrollDirection
        let dirDist :=
          if isAtBottom && decide (dist0 > 0) then ((-1 : ℤ), (-35 : ℤ))
          else if isAtTop && decide (dist0 < 0) then ((1 : ℤ), (35 : ℤ))
          else (st.scrollDirection, dist0)
        ({ st with scrollDirection := dirDist.1,
                   lastScrollTime := now,
                   lastScrollFinishTime := now,
                   latestOcrResult := none,
                   scrollCount := st.scrollCount + 1 },
         [EngAction.moveTo (inp.regionLeft + inp.scrollIconLocalX)
            (inp.regionTop + localY),
          EngAction.dragScroll dirDist.2])
      else (st, [])
  else (st, [])

/-- The cooldown purge at the top of a SCANNING tick: keep the entries of
`checked_maps` that are not older than `CHECK_COOLDOWN`. -/
def purgedChecked (st : WorkerState) (now : ℤ) : List (String × ℤ) :=
  st.checkedMaps.filter (fun p => !decide (now - p.2 > CHECK_COOLDOWN))

/-- The SCANNING state handler: purge expired cooldown entries, run the
priority loop, click the selected map (template hit: rectangle centre; OCR
hit: box mean, also caching the matched region as the map's template), record
the click in `checked_maps`, reset the channel cursor and move to
WAITING_FOR_BOSS_LIST; with no selection, run the scroll block. -/
def scanStepRun (st : WorkerState) (inp : TickInput) :
    WorkerState × List EngAction :=
  let now := inp.now
  let checked := purgedChecked st now
  let st1 := { st with checkedMaps := checked }
  match scanPick st1 inp checked with
  | .viaTemplate _ m r =>
    let centerX := r.x + r.w.fdiv 2
    let centerY := r.y + r.h.fdiv 2
    ({ st1 with checkedMaps := setChecked checked m now,
                currentMapName := some m,
                state := MachineState.WAITING_FOR_BOSS_LIST,
                stateTimer := now,
                currentChannel := 1,
                isInitialCheck := true,
                lastTargetFoundTime := now },
     [EngAction.moveClick (inp.regionLeft + centerX) (inp.regionTop + centerY)])
  | .viaOcr _ m b =>
    let xs := b.box.map (fun p => p.1)
    let ys := b.box.map (fun p => p.2)
    let centerX := meanInt xs
    let centerY := meanInt ys
    ({ st1 with cachedKeys := insertKey st1.cachedKeys ("map:" ++ m),
                checkedMaps := setChecked checked m now,
                currentMapName := some m,
                state := MachineState.WAITING_FOR_BOSS_LIST,
                stateTimer := now,
                currentChannel := 1,
                isInitialCheck := true,
                lastTargetFoundTime := now },
     [EngAction.moveClick (inp.regionLeft + centerX) (inp.regionTop + centerY)])
  | .noneFound => scrollPhase st1 inp

/-- The strict availability test on a recognized text in CHECKING_BOSSES:
exact `"dostępny"`, or `Levenshtein.ratio(·, "dostępny") > 0.85`, or the text
contains `"dostępny"`. -/
def dostepnyLike (lev : String → String → ℚ) (t : String) : Bool :=
  t == "dostępny" || lev t ("dostępny") > mkRat 85 100 ||
    containsSub ("dostępny") t

/-- Verification of a fast-path `status:dostepny` hit in CHECKING_BOSSES:
reject when blacklisted; on an OCR error reject; with no recognized text the
rectangle survives (the unused `is_valid` flag in the source never blocks it);
with a text, reject timer-like strings and texts that are not
`dostępny`-like. -/
def checkFastAccept (st : WorkerState) (inp : TickInput) (r : Rect) : Bool :=
  if isBlacklisted st r.x r.y r.w r.h then false
  else if inp.verifyErr then false
  else
    match inp.verifyText with
    | none => true
    | some t0 =>
      let t := lowerStr (stripStr t0)
      if hasTimerPat t.data then false
      else dostepnyLike inp.levRatio t

/-- The CHECKING_BOSSES slow-path acceptance for one OCR box: the stripped
lower-case text is `dostępny`-like and the box is not blacklisted. -/
def checkSlowAccept (st : WorkerState) (inp : TickInput) (b : OcrBox) : Bool :=
  let tLower := lowerStr (stripStr b.text)
  if dostepnyLike inp.levRatio tLower then
    let xs := b.box.map (fun p => p.1)
    let ys := b.box.map (fun p => p.2)
    let minX := (xs.min?).getD 0
    let maxX := (xs.max?).getD 0
    let minY := (ys.min?).getD 0
    let maxY := (ys.max?).getD 0
    !isBlacklisted st minX minY (maxX - minX) (maxY - minY)
  else false

/-- The CHECKING_BOSSES state handler: fast path on the `status:dostepny`
template with blacklist check and OCR verification, clicking 20 px right of
the match and locking on; otherwise, with OCR results fresher than the state
entry, the OCR slow path (locking on and caching the status template); with
neither, after > 2.0 s run the channel-cycle cascade (initial check restarts
at channel 1; more channels advance the cursor; a single configured map wraps
to channel 1; otherwise mark the map checked, reset OCR suppression and
return to SCANNING). -/
def checkStep (st : WorkerState) (inp : TickInput) :
    WorkerState × List EngAction :=
  let now := inp.now
  match findStatusTemplate st inp with
  | some r =>
    if checkFastAccept st inp r then
      let targetX := r.x + r.w + 20
      let targetY := r.y + r.h.fdiv 2
      ({ st with state := MachineState.MONITORING_BOSS,
                 lockedBossRoi := some ⟨r.x, r.x + r.w, r.y, r.y + r.h, "Dostępny"⟩,
                 bossStatusChangeCounter := 0,
                 stateTimer := now },
       [EngAction.moveClick (inp.regionLeft + targetX) (inp.regionTop + targetY)])
    else (st, [])
  | none =>
    if st.lastOcrTime > st.stateTimer then
      match (ocrBoxes st).find? (fun b => checkSlowAccept st inp b) with
      | some b =>
        let xs := b.box.map (fun p => p.1)
        let ys := b.box.map (fun p => p.2)
        let minX := (xs.min?).getD 0
        let maxX := (xs.max?).getD 0
        let minY := (ys.min?).getD 0
        let maxY := (ys.max?).getD 0
        let centerY := meanInt ys
        ({ st with cachedKeys := insertKey st.cachedKeys ("status:dostepny"),
                   state := MachineState.MONITORING_BOSS,
                   lockedBossRoi := some ⟨minX, maxX, minY, maxY, b.text⟩,
                   bossStatusChangeCounter := 0,
                   stateTimer := now },
         [EngAction.moveClick (inp.regionLeft + maxX + 20) (inp.regionTop + centerY)])
      | none =>
        if now - st.stateTimer > 200 then
          if st.isInitialCheck then
            ({ st with isInitialCheck := false,
                       currentChannel := 1,
                       state := MachineState.CHANGING_CHANNEL,
                       stateTimer := now }, [])
          else if st.currentChannel < st.numChannels then
            ({ st with state := MachineState.CHANGING_CHANNEL,
                       currentChannel := st.currentChannel + 1,
                       stateTimer := now }, [])
          else if st.mapPriority.length == 1 then
            ({ st with currentChannel := 1,
                       state := MachineState.CHANGING_CHANNEL,
                       stateTimer := now }, [])
          else
            ({ st with checkedMaps :=
                         (match st.currentMapName with
                          | some m => setChecked st.checkedMaps m now
                          | none => st.checkedMaps),
                       currentChannel := 1,
                       ocrDisabledUntilCycleEnd := false,
                       state := MachineState.SCANNING }, [])
        else (st, [])
    else (st, [])

/-- Release the held spacebar if it is held (`if self.space_held: release`). -/
def releaseSpaceIfHeld (st : WorkerState) : WorkerState × List EngAction :=
  if st.spaceHeld then
    ({ st with spaceHeld := false }, [EngAction.releaseSpace])
  else (st, [])

/-- The MONITORING_BOSS OCR fallback test for one box: the lower-cased text
contains `"stępn"` or is ratio-similar to `"dostępny"` above `0.7`, and the
box centre lies inside the locked ROI.  The float mean comparison
`minX ≤ mean(xs) ≤ maxX` is written cross-multiplied by the (positive) number
of corner points. -/
def monitorBoxMatch (st : WorkerState) (inp : TickInput) (b : OcrBox) : Bool :=
  (containsSub ("stępn") (lowerStr b.text) ||
    inp.levRatio (lowerStr b.text) ("dostępny") > mkRat 7 10) &&
  (match st.lockedBossRoi with
   | some roi =>
     let xs := b.box.map (fun p => p.1)
     let ys := b.box.map (fun p => p.2)
     let n : ℤ := b.box.length
     decide (roi.minX * n ≤ xs.sum) && decide (xs.sum ≤ roi.maxX * n) &&
       decide (roi.minY * n ≤ ys.sum) && decide (ys.sum ≤ roi.maxY * n)
   | none => false)

/-- The availability re-check of a MONITORING_BOSS tick: via the cached
`status:dostepny` template searched inside the locked ROI when one exists (a
caught template error counts as unavailable), else via the OCR fallback over
the latest (non-empty) result. -/
def monitorStillAvailable (st : WorkerState) (inp : TickInput) : Bool :=
  let hasTemplate := st.cachedKeys.contains ("status:dostepny")
  if hasTemplate then
    if inp.monitorTemplateErr then false
    else inp.findStatusInLockedRoi.isSome
  else
    match st.latestOcrResult with
    | some (b :: bs) => (b :: bs).any (fun bx => monitorBoxMatch st inp bx)
    | _ => false

/-- The MONITORING_BOSS state handler: first the stuck-boss check (past the
stuck timeout, blacklist the locked position, release the spacebar and return
to CHECKING_BOSSES); then, if not yet engaged, press the pelerynka key and
hold the spacebar, enabling the OCR cycle suppression (a caught input error
leaves the state unchanged); then the availability check
(`monitorStillAvailable`), and on unavailability release the spacebar and
return to CHECKING_BOSSES. -/
def monitorStep (st : WorkerState) (inp : TickInput) :
    WorkerState × List EngAction :=
  let now := inp.now
  if st.ignoreStuck && decide (now - st.stateTimer > st.stuckTimeout) then
    let stB :=
      match st.lockedBossRoi with
      | some roi =>
        { st with bossBlacklist := blInsert st.bossBlacklist (blacklistKeyOf st roi) now }
      | none => st
    let p := releaseSpaceIfHeld stB
    ({ p.1 with state := MachineState.CHECKING_BOSSES,
                stateTimer := now,
                lockedBossRoi := none }, p.2)
  else
    let pressed :=
      if !st.spaceHeld then
        if inp.inputErr then (st, ([] : List EngAction))
        else
          ({ st with spaceHeld := true,
                     ocrDisabledUntilCycleEnd := true,
                     enteredMapTime := now },
           [EngAction.pressKey st.pelerynkaKey, EngAction.holdSpace])
      else (st, [])
    let st2 := pressed.1
    if !monitorStillAvailable st2 inp then
      let p := releaseSpaceIfHeld st2
      ({ p.1 with state := MachineState.CHECKING_BOSSES,
                  stateTimer := now,
                  lockedBossRoi := none }, pressed.2 ++ p.2)
    else (st2, pressed.2)

/-- The CHANGING_CHANNEL state handler: issue the per-channel hotkey when one
is configured, otherwise the `/ch N` chat-command fallback, then go to
RESELECTING_MAP.  (The switch interaction is modelled as succeeding; the
source's caught exception path returns to SCANNING.) -/
def channelStep (st : WorkerState) (inp : TickInput) :
    WorkerState × List EngAction :=
  let acts :=
    match lookupHotkey st.channelHotkeys st.currentChannel with
    | some hk => [EngAction.pressKey hk]
    | none =>
      [EngAction.pressKey ("esc"), EngAction.pressKey ("enter"),
       EngAction.chatCommand ("/ch " ++ toString st.currentChannel),
       EngAction.pressKey ("enter")]
  ({ st with state := MachineState.RESELECTING_MAP, stateTimer := inp.now }, acts)

/-- The RESELECTING_MAP state handler: after a channel switch, find and click
only the current map again (template first, then a strict `ratio > 0.8` OCR
match); on success go to WAITING_FOR_BOSS_LIST, after 5.0 s of failure fall
back to SCANNING. -/
def reselectStep (st : WorkerState) (inp : TickInput) :
    WorkerState × List EngAction :=
  let now := inp.now
  let priorityMap := st.currentMapName.getD ""
  match findMapTemplate st inp priorityMap with
  | some r =>
    let centerX := r.x + r.w.fdiv 2
    let centerY := r.y + r.h.fdiv 2
    ({ st with state := MachineState.WAITING_FOR_BOSS_LIST, stateTimer := now },
     [EngAction.moveClick (inp.regionLeft + centerX) (inp.regionTop + centerY)])
  | none =>
    match (ocrBoxes st).find? (fun b =>
        inp.levRatio (lowerStr b.text) (lowerStr priorityMap) > mkRat 8 10) with
    | some b =>
      let centerX := meanInt (b.box.map (fun p => p.1))
      let centerY := meanInt (b.box.map (fun p => p.2))
      ({ st with state := MachineState.WAITING_FOR_BOSS_LIST, stateTimer := now },
       [EngAction.moveClick (inp.regionLeft + centerX) (inp.regionTop + centerY)])
    | none =>
      if now - st.stateTimer > 500 then
        ({ st with state := MachineState.SCANNING }, [])
      else (st, [])

/-- The WAITING_FOR_BOSS_LIST state handler: a fixed 0.5 s delay, then
CHECKING_BOSSES. -/
def waitStep (st : WorkerState) (inp : TickInput) :
    WorkerState × List EngAction :=
  if inp.now - st.stateTimer > 50 then
    ({ st with state := MachineState.CHECKING_BOSSES, stateTimer := inp.now }, [])
  else (st, [])

/-- Dispatch on `self.state` (the body of the state machine). -/
def stepMachine (st : WorkerState) (inp : TickInput) :
    WorkerState × List EngAction :=
  match st.state with
  | MachineState.SCANNING => scanStepRun st inp
  | MachineState.RESELECTING_MAP => reselectStep st inp
  | MachineState.WAITING_FOR_BOSS_LIST => waitStep st inp
  | MachineState.CHECKING_BOSSES => checkStep st inp
  | MachineState.MONITORING_BOSS => monitorStep st inp
  | MachineState.CHANGING_CHANNEL => channelStep st inp

/-- One tick of the `run` loop from the OCR-trigger section on: periodic
template revalidation, the `ocr_needed` computation and asynchronous OCR
dispatch (at most once per `OCR_INTERVAL`), then the state machine behind the
`latest_ocr_result and map_priority` gate. -/
def tick (st : WorkerState) (inp : TickInput) : WorkerState × List Action :=
  let st1 := revalStep st inp.now
  let needed := ocrNeeded st1 inp.now
  let disp :=
    if needed && decide (inp.now - st1.lastOcrTime ≥ OCR_INTERVAL) then
      ({ st1 with lastOcrTime := inp.now }, [Action.dispatchOcr])
    else (st1, ([] : List Action))
  let st2 := disp.1
  if gateOpen st2 then
    let p := stepMachine st2 inp
    (p.1, disp.2 ++ p.2.map Action.eng)
  else (st2, disp.2)

/-- The result-delivery section of `_run_ocr`: under the OCR lock, a result
whose capture timestamp is newer than the last scroll-finish timestamp
replaces `latest_ocr_result`; otherwise it is discarded as stale. -/
def storeOcrResult (st : WorkerState) (result : Option (List OcrBox))
    (timestamp : ℤ) : WorkerState :=
  if timestamp > st.lastScrollFinishTime then
    { st with latestOcrResult := result }
  else st

/-- The held-input part of `stop()`: release the spacebar if it is held,
before the loop thread terminates. -/
def stopWorker (st : WorkerState) : WorkerState × List EngAction :=
  releaseSpaceIfHeld st

/-- A worker state with the constructor's defaults (times at 0). -/
def baseState : WorkerState where
  mapPriority := []
  numChannels := 1
  channelHotkeys := []
  pelerynkaKey := "f1"
  ignoreStuck := true
  stuckTimeout := 3000
  state := MachineState.SCANNING
  stateTimer := 0
  currentMapName := none
  lockedBossRoi := none
  bossStatusChangeCounter := 0
  checkedMaps := []
  currentChannel := 1
  spaceHeld := false
  latestOcrResult := none
  lastOcrTime := 0
  ocrDisabledUntilCycleEnd := false
  enteredMapTime := 0
  isInitialCheck := false
  bossBlacklist := []
  lastScrollTime := 0
  lastScrollFinishTime := 0
  lastTargetFoundTime := 0
  scrollDirection := 1
  scrollCount := 0
  cachedKeys := []
  lastRevalidationTime := 0

/-- A tick input whose perception oracles all report nothing. -/
def blankInput : TickInput where
  now := 0
  levRatio := fun _ _ => 0
  findMapRect := fun _ => none
  findStatusRect := none
  findStatusInLockedRoi := none
  monitorTemplateErr := false
  verifyText := none
  verifyErr := false
  inputErr := false
  hasScrollTemplate := false
  scrollIconLocalY := none
  scrollIconLocalX := 0
  roiHeight := 100
  regionLeft := 0
  regionTop := 0

/-- An arbitrary OCR box used to open the state-machine gate in concrete
scenarios. -/
def dummyBox : OcrBox where
  box := [(0, 0), (4, 0), (4, 2), (0, 2)]
  text := "zzz"
  conf := 0

/-- Number of occurrences of one engagement action in an action list. -/
def countAct (a : EngAction) (l : List EngAction) : ℕ :=
  (l.filter (fun b => b == a)).length

/-- Soundness of the SCANNING priority loop, by induction along the priority
list: provided nothing visible and unchecked occurs before the start index,
any selected index has nothing visible and unchecked strictly before it. -/
theorem scanPickAux_min (st : WorkerState) (inp : TickInput)
    (checked : List (String × ℤ)) :
    ∀ (rest : List String) (idx : ℕ),
      rest = st.mapPriority.drop idx →
      (∀ i, i < idx → ∀ hi : i < st.mapPriority.length,
        isChecked checked (st.mapPriority[i]) = false →
        scanVisible st inp (st.mapPriority[i]) = false) →
      ∀ j, (scanPickAux st inp checked rest idx).idx? = some j →
        j < st.mapPriority.length ∧
        ∀ i, i < j → ∀ hi : i < st.mapPriority.length,
          isChecked checked (st.mapPriority[i]) = false →
          scanVisible st inp (st.mapPriority[i]) = false := by
  intro rest
  induction rest with
  | nil =>
    intro idx _ _ j hj
    simp [scanPickAux, ScanPick.idx?] at hj
  | cons m rest ih =>
    intro idx hrest hpre j hj
    have hidx : idx < st.mapPriority.length := by
      by_contra hle
      push_neg at hle
      rw [List.drop_eq_nil_of_le hle] at hrest
      exact List.cons_ne_nil m rest hrest
    rw [List.drop_eq_getElem_cons hidx] at hrest
    injection hrest with hm hrest2
    have hpre' :
        (isChecked checked m = false → scanVisible st inp m = false) →
        ∀ i, i < idx + 1 → ∀ hi : i < st.mapPriority.length,
          isChecked checked (st.mapPriority[i]) = false →
          scanVisible st inp (st.mapPriority[i]) = false := by
      intro hm0 i hi hilen hunch
      rcases Nat.lt_succ_iff_lt_or_eq.mp hi with h | h
      · exact hpre i h hilen hunch
      · subst h
        rw [← hm] at hunch ⊢
        exact hm0 hunch
    rw [scanPickAux] at hj
    cases hch : isChecked checked m with
    | true =>
      rw [if_pos hch] at hj
      refine ih (idx + 1) hrest2 (hpre' ?_) j hj
      intro hco
      rw [hco] at hch
      exact absurd hch (by simp)
    | false =>
      rw [if_neg (by simp [hch])] at hj
      cases htm : findMapTemplate st inp m with
      | some r =>
        cases hhv : higherVisible st inp checked idx with
        | true =>
          exfalso
          unfold higherVisible at hhv
          rw [List.any_eq_true] at hhv
          obtain ⟨i, hmem, hfi⟩ := hhv
          rw [List.mem_range] at hmem
          have hilen : i < st.mapPriority.length := lt_trans hmem hidx
          rw [List.get?_eq_getElem?, List.getElem?_eq_getElem hilen] at hfi
          simp only [Bool.and_eq_true, Bool.not_eq_true', Option.isSome_iff_exists] at hfi
          obtain ⟨hunch, r2, hr2⟩ := hfi
          have hvis := hpre i hmem hilen hunch
          unfold scanVisible at hvis
          rw [hr2] at hvis
          simp at hvis
        | false =>
          simp only [htm, hhv, Bool.false_eq_true, if_false, ScanPick.idx?,
            Option.some.injEq] at hj
          subst hj
          exact ⟨hidx, fun i hi hilen hunch => hpre i hi hilen hunch⟩
      | none =>
        cases hsl : slowScanPick inp.levRatio (ocrBoxes st) m with
        | some b =>
          simp only [htm, hsl, ScanPick.idx?, Option.some.injEq] at hj
          subst hj
          exact ⟨hidx, fun i hi hilen hunch => hpre i hi hilen hunch⟩
        | none =>
          simp only [htm, hsl] at hj
          refine ih (idx + 1) hrest2 (hpre' ?_) j hj
          intro _
          unfold scanVisible
          rw [htm, hsl]
          rfl

/-- A map selected by the SCANNING priority loop is never one that is in the
`checked_maps` cooldown set. -/
theorem scanPickAux_unchecked (st : WorkerState) (inp : TickInput)
    (checked : List (String × ℤ)) :
    ∀ (rest : List String) (idx : ℕ) (n : String),
      (scanPickAux st inp checked rest idx).name? = some n →
      isChecked checked n = false := by
  intro rest
  induction rest with
  | nil =>
    intro idx n hn
    simp [scanPickAux, ScanPick.name?] at hn
  | cons m rest ih =>
    intro idx n hn
    rw [scanPickAux] at hn
    cases hch : isChecked checked m with
    | true =>
      rw [if_pos hch] at hn
      exact ih (idx + 1) n hn
    | false =>
      rw [if_neg (by simp [hch])] at hn
      cases htm : findMapTemplate st inp m with
      | some r =>
        cases hhv : higherVisible st inp checked idx with
        | true =>
          simp only [htm, hhv, if_true] at hn
          exact ih (idx + 1) n hn
        | false =>
          simp only [htm, hhv, Bool.false_eq_true, if_false, ScanPick.name?,
            Option.some.injEq] at hn
          subst hn
          exact hch
      | none =>
        cases hsl : slowScanPick inp.levRatio (ocrBoxes st) m with
        | some b =>
          simp only [htm, hsl, ScanPick.name?, Option.some.injEq] at hn
          subst hn
          exact hch
        | none =>
          simp only [htm, hsl] at hn
          exact ih (idx + 1) n hn

/-- Claim C2: on every SCANNING tick, the priority loop acts only on the
lowest-priority-index visible target: whenever the loop selects the map at
priority index `j`, every strictly higher-priority map that is not in
cooldown is invisible this tick (neither its cached template matches the
frame, nor any OCR box passes the slow-path acceptance test for it) — in
particular, when two or more configured maps are visible and not in cooldown,
only the one with the lowest priority index is clicked.  The Issue-6 re-check
(`higherVisible`) that skips a fast-path hit while a strictly higher-priority
unchecked map is template-visible is part of `scanPickAux` exactly as in the
source. -/
theorem claim_c2_priority (st : WorkerState) (inp : TickInput)
    (checked : List (String × ℤ)) (j : ℕ)
    (hpick : (scanPick st inp checked).idx? = some j) :
    j < st.mapPriority.length ∧
    ∀ i, i < j → ∀ hi : i < st.mapPriority.length,
      isChecked checked (st.mapPriority[i]) = false →
      scanVisible st inp (st.mapPriority[i]) = false := by
  refine scanPickAux_min st inp checked st.mapPriority 0 ?_ ?_ j hpick
  · rw [List.drop_zero]
  · intro i hi
    exact absurd hi (Nat.not_lt_zero i)

/-- Tick input for the concrete C2 scenario: maps "A" and "B" both visible via
cached templates. -/
def c2Input : TickInput :=
  { blankInput with
      now := 100,
      findMapRect := fun _ => some ⟨10, 10, 20, 8⟩ }

/-- Worker state for the concrete C2 scenario: only "B"'s template is cached,
so "A" (priority 0) is invisible and "B" (priority 1) is selected. -/
def c2State : WorkerState :=
  { baseState with
      mapPriority := ["A", "B"],
      cachedKeys := ["map:B"],
      latestOcrResult := some [dummyBox] }

/-- Witness for claim C2 at a concrete input: the loop selects priority
index 1 and the theorem yields that the higher-priority map "A" is invisible
this tick. -/
theorem claim_c2_witness : scanVisible c2State c2Input ("A") = false := by
  have h := claim_c2_priority c2State c2Input [] 1 (by decide)
  have h0 := h.2 0 (by decide) (by decide) (by decide)
  exact h0

/-- Claim C9: for a recognized text and a candidate map name whose similarity
ratio exceeds 0.6, when the name contains digit groups the slow-path match is
accepted exactly when the text also contains digit groups and the last groups
agree; in particular it is rejected when the text has no digits. -/
theorem claim_c9_numeral (text name : String) (r : ℚ)
    (hr : r > mkRat 6 10) (hn : findNums name ≠ []) :
    slowAccept (fun _ _ => r) text name = true ↔
      (findNums text ≠ [] ∧
        (findNums text).getLast? = (findNums name).getLast?) := by
  simp only [slowAccept]
  rw [if_pos hr]
  have hmn : (findNums name).isEmpty = false := by
    cases h : findNums name
    · exact absurd h hn
    · rfl
  rw [hmn]
  simp only [Bool.false_eq_true, if_false]
  cases htn : (findNums text).isEmpty with
  | true =>
    rw [List.isEmpty_iff] at htn
    simp [htn]
  | false =>
    have htn2 : findNums text ≠ [] := by
      intro h
      rw [h] at htn
      exact absurd htn (by simp)
    simp [htn2, beq_iff_eq]

/-- Witness for claim C9: the spec's concrete scenario — candidate
"Grota Wygnańców V3" against recognized text "Grota Wygnańców V2" at
similarity ratio 0.9 is rejected (trailing numeral mismatch). -/
theorem claim_c9_witness :
    slowAccept (fun _ _ => mkRat 9 10) ("Grota Wygnańców V2")
      ("Grota Wygnańców V3") = false := by
  have h := claim_c9_numeral ("Grota Wygnańców V2") ("Grota Wygnańców V3")
    (mkRat 9 10) (by decide) (by decide)
  cases hb : slowAccept (fun _ _ => mkRat 9 10) ("Grota Wygnańców V2")
      ("Grota Wygnańców V3") with
  | false => rfl
  | true => exact absurd (h.mp hb) (by decide)

/-- Claim C4 counterexample: an OCR run whose capture timestamp equals (so
does not precede) the last scroll's completion timestamp is nevertheless
discarded — the claim's "otherwise the newer result replaces the older one"
fails at the equal-timestamp boundary, since the source keeps a result only
when its timestamp is strictly greater. -/
theorem claim_c4_cex :
    ¬((500 : ℤ) <
        ({ baseState with lastScrollFinishTime := 500 } : WorkerState).lastScrollFinishTime) ∧
    (storeOcrResult { baseState with lastScrollFinishTime := 500 }
        (some [dummyBox]) 500).latestOcrResult = none := by
  decide

/-- Claim C4 (amended): a completed OCR run whose timestamp does not strictly
exceed the last scroll's completion timestamp never changes the latest-result
slot; a strictly newer result replaces the older one. -/
theorem claim_c4_staleness (st : WorkerState) (result : Option (List OcrBox))
    (ts : ℤ) :
    (ts ≤ st.lastScrollFinishTime →
      (storeOcrResult st result ts).latestOcrResult = st.latestOcrResult) ∧
    (st.lastScrollFinishTime < ts →
      (storeOcrResult st result ts).latestOcrResult = result) := by
  unfold storeOcrResult
  constructor
  · intro hle
    rw [if_neg (by omega)]
  · intro hlt
    rw [if_pos (by omega)]

/-- Witness for claim C4 at concrete inputs: a result from before the scroll
is dropped, a result from after the scroll is stored. -/
theorem claim_c4_witness :
    (storeOcrResult { baseState with lastScrollFinishTime := 500 }
        (some [dummyBox]) 300).latestOcrResult = none ∧
    (storeOcrResult { baseState with lastScrollFinishTime := 500 }
        (some [dummyBox]) 700).latestOcrResult = some [dummyBox] := by
  constructor
  · exact (claim_c4_staleness _ _ _).1 (by decide)
  · exact (claim_c4_staleness _ _ _).2 (by decide)

/-- Worker state for the concrete C3 scenario: engagement cool-down active
while in CHECKING_BOSSES (as after an in-lock status change), state entered at
time 0. -/
def c3State : WorkerState :=
  { baseState with
      state := MachineState.CHECKING_BOSSES,
      ocrDisabledUntilCycleEnd := true }

/-- Claim C3 counterexample: with the engagement cool-down flag set and the
worker in CHECKING_BOSSES for more than 1.0 s, the tick still dispatches an
OCR worker — the no-confirmation watchdog does not consult the flag, so the
slow path is not suppressed in every state. -/
theorem claim_c3_cex :
    c3State.ocrDisabledUntilCycleEnd = true ∧
    Action.dispatchOcr ∈ (tick c3State { blankInput with now := 200 }).2 := by
  decide

/-- Claim C3 (amended): while the engagement cool-down flag is set, no tick
dispatches an OCR worker in any state other than CHECKING_BOSSES (where the
> 1.0 s no-confirmation watchdog re-enables the slow path regardless of the
flag). -/
theorem claim_c3_suppression (st : WorkerState) (inp : TickInput)
    (hdis : st.ocrDisabledUntilCycleEnd = true)
    (hstate : st.state ≠ MachineState.CHECKING_BOSSES) :
    Action.dispatchOcr ∉ (tick st inp).2 := by
  have hd : (revalStep st inp.now).ocrDisabledUntilCycleEnd = true := by
    unfold revalStep
    split <;> exact hdis
  have hs : (revalStep st inp.now).state = st.state := by
    unfold revalStep
    split <;> rfl
  have hneed : ocrNeeded (revalStep st inp.now) inp.now = false := by
    simp only [ocrNeeded, hd, hs]
    simp [hstate]
  simp only [tick, hneed, Bool.false_and, Bool.false_eq_true, if_false]
  split
  · simp
  · simp

/-- Witness for claim C3 at a concrete input: cool-down flag set while
SCANNING, with templates missing and the OCR interval elapsed — still no OCR
dispatch. -/
theorem claim_c3_witness :
    Action.dispatchOcr ∉
      (tick { baseState with ocrDisabledUntilCycleEnd := true }
            { blankInput with now := 200 }).2 := by
  exact claim_c3_suppression _ _ rfl (by decide)

/-- Worker state for the concrete C1 scenario: a blacklist entry was recorded
for grid cell (5,5) of map "MapA" on channel 1, and the machine is about to
switch (back) to channel 1. -/
def c1State : WorkerState :=
  { baseState with
      state := MachineState.CHANGING_CHANNEL,
      mapPriority := ["MapA"],
      currentMapName := some ("MapA"),
      channelHotkeys := [(1, "f2")],
      bossBlacklist := [((some ("MapA"), 1, 5, 5), 0)],
      latestOcrResult := some [dummyBox] }

/-- Claim C1 counterexample: a channel-switch transition does not clear the
stuck-target blacklist — after the CHANGING_CHANNEL tick completes (moving to
RESELECTING_MAP), the point blacklisted before the switch is still reported
as blacklisted under the (revisited) channel. -/
theorem claim_c1_cex :
    isBlacklisted c1State 45 45 10 10 = true ∧
    (tick c1State { blankInput with now := 100 }).1.state =
      MachineState.RESELECTING_MAP ∧
    isBlacklisted (tick c1State { blankInput with now := 100 }).1
      45 45 10 10 = true := by
  decide

/-- Claim C1 (amended): a channel switch never clears the blacklist (the
CHANGING_CHANNEL transition leaves `boss_blacklist` unchanged); instead,
entries are keyed by channel, so `_is_blacklisted` reports false after a
switch exactly because no recorded entry mentions the now-current channel —
entries recorded under a channel remain in force whenever that channel is
current again. -/
theorem claim_c1_blacklist (st : WorkerState) (inp : TickInput) :
    (channelStep st inp).1.bossBlacklist = st.bossBlacklist ∧
    ((∀ e ∈ st.bossBlacklist, e.1.2.1 ≠ st.currentChannel) →
      ∀ x y w h : ℤ, isBlacklisted st x y w h = false) := by
  constructor
  · rfl
  · intro hch x y w h
    unfold isBlacklisted
    cases hig : st.ignoreStuck with
    | false => simp
    | true =>
      simp only [hig, Bool.not_true, Bool.false_eq_true, if_false]
      simp only [List.any_eq_false]
      intro dx _ hinner
      rw [List.any_eq_true] at hinner
      obtain ⟨dy, _, hinner2⟩ := hinner
      rw [List.any_eq_true] at hinner2
      obtain ⟨e, he, heq⟩ := hinner2
      rw [beq_iff_eq] at heq
      exact hch e he (by rw [heq])

/-- Worker state for the concrete C1 witness: the only blacklist entry is for
channel 1 while the current channel is 2. -/
def c1WitState : WorkerState :=
  { baseState with
      currentChannel := 2,
      bossBlacklist := [((some ("M"), 1, 5, 5), 0)] }

/-- Witness for claim C1 at a concrete input: switching leaves the blacklist
intact, and a point whose entries all concern another channel reads as not
blacklisted. -/
theorem claim_c1_witness :
    (channelStep c1WitState blankInput).1.bossBlacklist = c1WitState.bossBlacklist ∧
    isBlacklisted c1WitState 45 45 10 10 = false := by
  refine ⟨(claim_c1_blacklist c1WitState blankInput).1, ?_⟩
  exact (claim_c1_blacklist c1WitState blankInput).2 (by decide) 45 45 10 10

/-- Tuple of the state-machine-owned fields of the worker state: everything
except the template-cache key set and the OCR/revalidation dispatch clocks. -/
def machineView (st : WorkerState) :=
  (st.state, st.stateTimer, st.currentMapName, st.lockedBossRoi,
   st.bossStatusChangeCounter, st.checkedMaps, st.currentChannel, st.spaceHeld,
   st.latestOcrResult, st.ocrDisabledUntilCycleEnd, st.enteredMapTime,
   st.isInitialCheck, st.bossBlacklist, st.lastScrollTime,
   st.lastScrollFinishTime, st.lastTargetFoundTime, st.scrollDirection,
   st.scrollCount)

/-- Claim C6: on a tick where the latest OCR result slot is `None` or an empty
list, or the configured priority list is empty (the gate is closed), no
state-machine action of any kind occurs: every state-machine-owned field is
unchanged — so no click, scroll, channel switch, lock monitoring, or timed
transition happens, even when cached templates would match — and the only
action the tick may emit is the background OCR dispatch. -/
theorem claim_c6_gate (st : WorkerState) (inp : TickInput)
    (hgate : gateOpen st = false) :
    machineView (tick st inp).1 = machineView st ∧
    ∀ a ∈ (tick st inp).2, a = Action.dispatchOcr := by
  have h1 : machineView (revalStep st inp.now) = machineView st := by
    unfold revalStep
    split <;> rfl
  have h2 : gateOpen (revalStep st inp.now) = false := by
    have hg : gateOpen (revalStep st inp.now) = gateOpen st := by
      unfold revalStep
      split <;> rfl
    rw [hg, hgate]
  have h2c : gateOpen ({ revalStep st inp.now with lastOcrTime := inp.now }) = false := h2
  by_cases hc : (ocrNeeded (revalStep st inp.now) inp.now &&
      decide (inp.now - (revalStep st inp.now).lastOcrTime ≥ OCR_INTERVAL)) = true
  · simp only [tick, hc, if_true, h2c, Bool.false_eq_true, if_false]
    exact ⟨h1, by simp⟩
  · rw [Bool.not_eq_true] at hc
    simp only [tick, hc, Bool.false_eq_true, if_false, h2]
    exact ⟨h1, by simp⟩

/-- Witness for claim C6 at a concrete input: with an empty latest-result slot
the tick leaves the whole machine view unchanged. -/
theorem claim_c6_witness :
    machineView (tick baseState blankInput).1 = machineView baseState ∧
    ∀ a ∈ (tick baseState blankInput).2, a = Action.dispatchOcr :=
  claim_c6_gate baseState blankInput (by decide)

/-- Claim C7: a MONITORING_BOSS tick past the stuck timeout with stuck-boss
handling enabled inserts exactly one blacklist entry, keyed by the current
map, current channel and the lock-centre coordinates quantized by 10 px,
releases the held spacebar, and transitions to CHECKING_BOSSES. -/
theorem claim_c7_stuck (st : WorkerState) (inp : TickInput) (roi : LockedRoi)
    (_hst : st.state = MachineState.MONITORING_BOSS)
    (hroi : st.lockedBossRoi = some roi)
    (hstuck : st.ignoreStuck = true)
    (htime : inp.now - st.stateTimer > st.stuckTimeout)
    (hfresh : ∀ t, (blacklistKeyOf st roi, t) ∉ st.bossBlacklist) :
    (monitorStep st inp).1.state = MachineState.CHECKING_BOSSES ∧
    (monitorStep st inp).1.spaceHeld = false ∧
    (monitorStep st inp).1.bossBlacklist.length = st.bossBlacklist.length + 1 ∧
    (blacklistKeyOf st roi, inp.now) ∈ (monitorStep st inp).1.bossBlacklist ∧
    countAct EngAction.releaseSpace (monitorStep st inp).2 =
      (if st.spaceHeld then 1 else 0) := by
  have hcond : (st.ignoreStuck && decide (inp.now - st.stateTimer > st.stuckTimeout)) = true := by
    rw [hstuck]
    simp [htime]
  have hflt : st.bossBlacklist.filter
      (fun e => !(e.1 == blacklistKeyOf st roi)) = st.bossBlacklist := by
    apply List.filter_eq_self.mpr
    intro e he
    have hne : e.1 ≠ blacklistKeyOf st roi := by
      intro heq
      apply hfresh e.2
      have he2 : (e.1, e.2) ∈ st.bossBlacklist := by simpa using he
      rw [heq] at he2
      exact he2
    simp [hne]
  cases hsp : st.spaceHeld with
  | true =>
    simp [monitorStep, hcond, hroi, releaseSpaceIfHeld, blInsert, hflt,
      countAct, hsp]
  | false =>
    simp [monitorStep, hcond, hroi, releaseSpaceIfHeld, blInsert, hflt,
      countAct, hsp]

/-- Worker state for the concrete C7 scenario: locked at t = 0 with a 30 s
stuck timeout, spacebar held, on map "MapA" channel 2. -/
def c7State : WorkerState :=
  { baseState with
      state := MachineState.MONITORING_BOSS,
      stateTimer := 0,
      stuckTimeout := 3000,
      ignoreStuck := true,
      spaceHeld := true,
      currentMapName := some ("MapA"),
      currentChannel := 2,
      lockedBossRoi := some ⟨100, 140, 50, 60, "Dostępny"⟩,
      latestOcrResult := some [dummyBox] }

/-- Witness for claim C7 at the spec's concrete scenario: entry at t = 0,
stuck timeout 30 s, no status change by t = 31 s — exactly one entry keyed
(MapA, 2, 12, 5) is inserted, the spacebar is released once and the state
becomes CHECKING_BOSSES. -/
theorem claim_c7_witness :
    (monitorStep c7State { blankInput with now := 3100 }).1.state =
      MachineState.CHECKING_BOSSES ∧
    (monitorStep c7State { blankInput with now := 3100 }).1.spaceHeld = false ∧
    (monitorStep c7State { blankInput with now := 3100 }).1.bossBlacklist.length =
      c7State.bossBlacklist.length + 1 ∧
    (blacklistKeyOf c7State ⟨100, 140, 50, 60, "Dostępny"⟩, (3100 : ℤ)) ∈
      (monitorStep c7State { blankInput with now := 3100 }).1.bossBlacklist ∧
    countAct EngAction.releaseSpace
      (monitorStep c7State { blankInput with now := 3100 }).2 =
      (if c7State.spaceHeld then 1 else 0) :=
  claim_c7_stuck c7State { blankInput with now := 3100 }
    ⟨100, 140, 50, 60, "Dostępny"⟩ (by decide) (by decide) (by decide)
    (by decide) (by intro t; exact List.not_mem_nil _)

/-- Worker state for the concrete C8 counterexample: SCANNING with the single
configured map in cooldown, so no target is clicked this tick. -/
def c8State : WorkerState :=
  { baseState with
      mapPriority := ["A"],
      checkedMaps := [("A", 9900)],
      latestOcrResult := some [dummyBox] }

/-- Tick input for the concrete C8 counterexample: the scroll indicator sits
at 5 % of the scrollable ROI height (inside the top 10 % boundary), more than
2 s since a target was found and more than 1 s since the last scroll. -/
def c8Input : TickInput :=
  { blankInput with
      now := 10000,
      hasScrollTemplate := true,
      scrollIconLocalY := some 5 }

/-- Claim C8 counterexample: with the scroll indicator at 5 % of the ROI
height (top boundary) and the scroll direction down (1), the tick does NOT
flip the direction to up — the direction stays 1 and a downward 35 px scroll
is issued — so the claimed top-boundary reversal while scrolling down does
not happen. -/
theorem claim_c8_cex :
    c8State.scrollDirection = 1 ∧
    (tick c8State c8Input).1.scrollDirection = 1 ∧
    Action.eng (EngAction.dragScroll 35) ∈ (tick c8State c8Input).2 := by
  decide

/-- Claim C8 (amended): the no-scroll direction reversal happens at the
boundary being approached — with the indicator inside the bottom 10 % of the
scrollable ROI height while the direction is down (1), the scroll block flips
the direction to up (−1), resets the scroll counter and issues no scroll
action that tick. -/
theorem claim_c8_boundary (st : WorkerState) (inp : TickInput) (localY : ℤ)
    (hno : inp.now - st.lastTargetFoundTime > 200)
    (htpl : inp.hasScrollTemplate = true)
    (hy : inp.scrollIconLocalY = some localY)
    (hbot : 10 * localY > 9 * inp.roiHeight)
    (hdir : st.scrollDirection = 1) :
    (scrollPhase st inp).1.scrollDirection = -1 ∧
    (scrollPhase st inp).2 = [] ∧
    (scrollPhase st inp).1.scrollCount = 0 := by
  simp [scrollPhase, hy, hno, htpl, hbot, hdir]

/-- Witness for claim C8 at a concrete input: indicator at 95 % of a 100 px
ROI while scrolling down — direction flips to −1 with no scroll action. -/
theorem claim_c8_witness :
    (scrollPhase { baseState with scrollCount := 3 }
        { blankInput with now := 1000, hasScrollTemplate := true,
                          scrollIconLocalY := some 95 }).1.scrollDirection = -1 ∧
    (scrollPhase { baseState with scrollCount := 3 }
        { blankInput with now := 1000, hasScrollTemplate := true,
                          scrollIconLocalY := some 95 }).2 = [] ∧
    (scrollPhase { baseState with scrollCount := 3 }
        { blankInput with now := 1000, hasScrollTemplate := true,
                          scrollIconLocalY := some 95 }).1.scrollCount = 0 :=
  claim_c8_boundary _ _ 95 (by decide) (by decide) (by decide) (by decide)
    (by decide)

/-- The scroll block never changes the machine state, the cooldown map or the
current map name. -/
theorem scrollPhase_fields (st : WorkerState) (inp : TickInput) :
    (scrollPhase st inp).1.state = st.state ∧
    (scrollPhase st inp).1.checkedMaps = st.checkedMaps ∧
    (scrollPhase st inp).1.currentMapName = st.currentMapName := by
  refine ⟨?_, ?_, ?_⟩ <;>
    (unfold scrollPhase; dsimp only; repeat' split) <;> rfl

/-- A map selected by the SCANNING priority loop is not in the cooldown set
(wrapper of `scanPickAux_unchecked` for the whole list). -/
theorem scanPick_unchecked (st : WorkerState) (inp : TickInput)
    (checked : List (String × ℤ)) (n : String)
    (hn : (scanPick st inp checked).name? = some n) :
    isChecked checked n = false :=
  scanPickAux_unchecked st inp checked st.mapPriority 0 n hn

/-- Claim C10: on a SCANNING tick, a target marked checked within the last
`CHECK_COOLDOWN` seconds is never re-selected, even if visible; and every
cooldown entry surviving the tick (the expired ones are purged, a new mark is
stamped at the current time) is at most `CHECK_COOLDOWN` old. -/
theorem claim_c10_cooldown (st : WorkerState) (inp : TickInput) (m : String)
    (t0 : ℤ)
    (hst : st.state = MachineState.SCANNING)
    (hmem : (m, t0) ∈ st.checkedMaps)
    (hcool : inp.now - t0 ≤ CHECK_COOLDOWN) :
    ((scanStepRun st inp).1.state = MachineState.WAITING_FOR_BOSS_LIST →
      (scanStepRun st inp).1.currentMapName ≠ some m) ∧
    (∀ p ∈ (scanStepRun st inp).1.checkedMaps,
      inp.now - p.2 ≤ CHECK_COOLDOWN) := by
  have hkeep : (m, t0) ∈ purgedChecked st inp.now := by
    unfold purgedChecked
    rw [List.mem_filter]
    refine ⟨hmem, ?_⟩
    simp only [Bool.not_eq_true', decide_eq_false_iff_not]
    omega
  have hchk : isChecked (purgedChecked st inp.now) m = true := by
    unfold isChecked
    rw [List.any_eq_true]
    exact ⟨(m, t0), hkeep, by simp⟩
  have hmemcool : ∀ p ∈ purgedChecked st inp.now,
      inp.now - p.2 ≤ CHECK_COOLDOWN := by
    intro p hp2
    unfold purgedChecked at hp2
    rw [List.mem_filter] at hp2
    have hb := hp2.2
    simp only [Bool.not_eq_true', decide_eq_false_iff_not] at hb
    omega
  simp only [scanStepRun]
  cases hp : scanPick { st with checkedMaps := purgedChecked st inp.now } inp
      (purgedChecked st inp.now) with
  | noneFound =>
    simp only [hp]
    constructor
    · intro hw
      have hsf := scrollPhase_fields
        { st with checkedMaps := purgedChecked st inp.now } inp
      have h2 : st.state = MachineState.WAITING_FOR_BOSS_LIST :=
        (hsf.1).symm.trans hw
      rw [hst] at h2
      exact absurd h2 (by decide)
    · intro p hp2
      have hsf := scrollPhase_fields
        { st with checkedMaps := purgedChecked st inp.now } inp
      rw [hsf.2.1] at hp2
      exact hmemcool p hp2
  | viaTemplate idx n r =>
    have hname : isChecked (purgedChecked st inp.now) n = false := by
      apply scanPick_unchecked
        { st with checkedMaps := purgedChecked st inp.now } inp
        (purgedChecked st inp.now) n
      rw [hp]
      try rfl
    simp only [hp]
    constructor
    · intro _ hEq
      injection hEq with hnm
      rw [hnm] at hname
      rw [hname] at hchk
      exact absurd hchk (by decide)
    · intro p hp2
      simp only [setChecked, List.mem_cons, List.mem_filter] at hp2
      rcases hp2 with hp2 | hp2
      · rw [hp2]
        simp [CHECK_COOLDOWN]
      · exact hmemcool p hp2.1
  | viaOcr idx n b =>
    have hname : isChecked (purgedChecked st inp.now) n = false := by
      apply scanPick_unchecked
        { st with checkedMaps := purgedChecked st inp.now } inp
        (purgedChecked st inp.now) n
      rw [hp]
      try rfl
    simp only [hp]
    constructor
    · intro _ hEq
      injection hEq with hnm
      rw [hnm] at hname
      rw [hname] at hchk
      exact absurd hchk (by decide)
    · intro p hp2
      simp only [setChecked, List.mem_cons, List.mem_filter] at hp2
      rcases hp2 with hp2 | hp2
      · rw [hp2]
        simp [CHECK_COOLDOWN]
      · exact hmemcool p hp2.1

/-- Worker state for the concrete C10 witness: "A" was acted on 5 s ago and is
still template-visible. -/
def c10State : WorkerState :=
  { baseState with
      mapPriority := ["A"],
      checkedMaps := [("A", 0)],
      cachedKeys := ["map:A"],
      latestOcrResult := some [dummyBox] }

/-- Tick input for the concrete C10 witness: the cached template for "A"
matches the frame. -/
def c10Input : TickInput :=
  { blankInput with
      now := 500,
      findMapRect := fun _ => some ⟨10, 10, 20, 8⟩ }

/-- Witness for claim C10 at a concrete input: "A", acted on 5 s ago and still
visible, is not re-selected, and the surviving cooldown entries are fresh. -/
theorem claim_c10_witness :
    ((scanStepRun c10State c10Input).1.state = MachineState.WAITING_FOR_BOSS_LIST →
      (scanStepRun c10State c10Input).1.currentMapName ≠ some ("A")) ∧
    (∀ p ∈ (scanStepRun c10State c10Input).1.checkedMaps,
      c10Input.now - p.2 ≤ CHECK_COOLDOWN) :=
  claim_c10_cooldown c10State c10Input ("A") 0 (by decide) (by decide) (by decide)

/-- countAct on the empty list. -/
theorem countAct_nil (a : EngAction) : countAct a [] = 0 := rfl

/-- countAct distributes over append. -/
theorem countAct_append (a : EngAction) (l1 l2 : List EngAction) :
    countAct a (l1 ++ l2) = countAct a l1 + countAct a l2 := by
  unfold countAct
  simp [List.filter_append]

/-- A key press (of any key name) is not a spacebar release. -/
theorem countAct_release_press (k : String) (l : List EngAction) :
    countAct EngAction.releaseSpace (EngAction.pressKey k :: l) =
      countAct EngAction.releaseSpace l := rfl

/-- A spacebar hold is not a spacebar release. -/
theorem countAct_release_hold (l : List EngAction) :
    countAct EngAction.releaseSpace (EngAction.holdSpace :: l) =
      countAct EngAction.releaseSpace l := rfl

/-- Counting a leading spacebar release. -/
theorem countAct_release_release (l : List EngAction) :
    countAct EngAction.releaseSpace (EngAction.releaseSpace :: l) =
      countAct EngAction.releaseSpace l + 1 := by
  unfold countAct
  simp [List.filter]

/-- A key press (of any key name) is not a spacebar hold. -/
theorem countAct_hold_press (k : String) (l : List EngAction) :
    countAct EngAction.holdSpace (EngAction.pressKey k :: l) =
      countAct EngAction.holdSpace l := rfl

/-- Counting a leading spacebar hold. -/
theorem countAct_hold_hold (l : List EngAction) :
    countAct EngAction.holdSpace (EngAction.holdSpace :: l) =
      countAct EngAction.holdSpace l + 1 := by
  unfold countAct
  simp [List.filter]

/-- A spacebar release is not a spacebar hold. -/
theorem countAct_hold_release (l : List EngAction) :
    countAct EngAction.holdSpace (EngAction.releaseSpace :: l) =
      countAct EngAction.holdSpace l := rfl

/-- Claim C5: every path that leaves MONITORING_BOSS — confirmation-status
change, stuck-timeout, a caught exception treated as a status change, or the
stop signal — releases the sustained spacebar exactly once and never leaves
it asserted: a monitoring tick that exits the state ends with the spacebar
not held and emits exactly one release when the key was held at entry (and
one release per hold taken during the tick otherwise); calling `stop()` after
such an exit releases nothing further, and `stop()` itself releases the key
exactly once whenever it is held. -/
theorem claim_c5_release (st : WorkerState) (inp : TickInput)
    (hst : st.state = MachineState.MONITORING_BOSS)
    (hexit : (monitorStep st inp).1.state ≠ MachineState.MONITORING_BOSS) :
    (monitorStep st inp).1.spaceHeld = false ∧
    countAct EngAction.releaseSpace (monitorStep st inp).2 =
      (if st.spaceHeld then 1
       else countAct EngAction.holdSpace (monitorStep st inp).2) ∧
    (stopWorker (monitorStep st inp).1).2 = [] ∧
    (∀ s : WorkerState, (stopWorker s).1.spaceHeld = false ∧
      countAct EngAction.releaseSpace (stopWorker s).2 =
        (if s.spaceHeld then 1 else 0)) := by
  have hstop : ∀ s : WorkerState, (stopWorker s).1.spaceHeld = false ∧
      countAct EngAction.releaseSpace (stopWorker s).2 =
        (if s.spaceHeld then 1 else 0) := by
    intro s
    unfold stopWorker releaseSpaceIfHeld
    cases hs : s.spaceHeld <;>
      simp [hs, countAct_nil, countAct_release_release]
  by_cases hstk : (st.ignoreStuck &&
      decide (inp.now - st.stateTimer > st.stuckTimeout)) = true
  · cases hroi : st.lockedBossRoi <;> cases hsp : st.spaceHeld <;>
      (refine ⟨?_, ?_, ?_, hstop⟩ <;>
        simp [monitorStep, hstk, hroi, hsp, releaseSpaceIfHeld, stopWorker,
          countAct_nil, countAct_release_release, blInsert])
  · rw [Bool.not_eq_true] at hstk
    cases hsp : st.spaceHeld with
    | true =>
      simp only [monitorStep, hstk, Bool.false_eq_true, if_false, hsp,
        Bool.not_true, releaseSpaceIfHeld, if_true] at hexit ⊢
      split at hexit
      · rw [if_pos (by assumption)]
        refine ⟨?_, ?_, ?_, hstop⟩ <;>
          simp [hsp, stopWorker, releaseSpaceIfHeld, countAct_nil,
            countAct_append, countAct_release_release]
      · exact absurd hst hexit
    | false =>
      cases hin : inp.inputErr with
      | true =>
        simp only [monitorStep, hstk, Bool.false_eq_true, if_false, hsp,
          Bool.not_false, if_true, hin, releaseSpaceIfHeld] at hexit ⊢
        split at hexit
        · rw [if_pos (by assumption)]
          refine ⟨?_, ?_, ?_, hstop⟩ <;>
            simp [hsp, stopWorker, releaseSpaceIfHeld, countAct_nil,
              countAct_append]
        · exact absurd hst hexit
      | false =>
        simp only [monitorStep, hstk, Bool.false_eq_true, if_false, hsp,
          Bool.not_false, if_true, hin, releaseSpaceIfHeld] at hexit ⊢
        split at hexit
        · rw [if_pos (by assumption)]
          refine ⟨?_, ?_, ?_, hstop⟩ <;>
            simp [hsp, stopWorker, releaseSpaceIfHeld, countAct_nil,
              countAct_append, countAct_release_press, countAct_release_hold,
              countAct_release_release, countAct_hold_press,
              countAct_hold_hold, countAct_hold_release]
        · exact absurd hst hexit

/-- Worker state for the concrete C5 witness: locked with the spacebar held,
past the stuck timeout. -/
def c5State : WorkerState :=
  { baseState with
      state := MachineState.MONITORING_BOSS,
      stateTimer := 0,
      stuckTimeout := 3000,
      spaceHeld := true,
      lockedBossRoi := some ⟨100, 140, 50, 60, "Dostępny"⟩,
      latestOcrResult := some [dummyBox] }

/-- Witness for claim C5 at a concrete input: a stuck-timeout exit from
MONITORING_BOSS releases the held spacebar exactly once, and a subsequent
stop releases nothing more. -/
theorem claim_c5_witness :
    (monitorStep c5State { blankInput with now := 3100 }).1.spaceHeld = false ∧
    countAct EngAction.releaseSpace
        (monitorStep c5State { blankInput with now := 3100 }).2 =
      (if c5State.spaceHeld then 1
       else countAct EngAction.holdSpace
         (monitorStep c5State { blankInput with now := 3100 }).2) ∧
    (stopWorker (monitorStep c5State { blankInput with now := 3100 }).1).2 = [] ∧
    (∀ s : WorkerState, (stopWorker s).1.spaceHeld = false ∧
      countAct EngAction.releaseSpace (stopWorker s).2 =
        (if s.spaceHeld then 1 else 0)) :=
  claim_c5_release c5State { blankInput with now := 3100 } (by decide)
    (by decide)

end TroyanEyes
